import Mathlib

/-!
Shallow embedding of the credit ledger and consumption engine of the
`morph-template` repository, together with theorems checking the
natural-language specification against the code.

Conventions of the embedding:
* TypeScript `number` credit values are modelled as `Int` (the schema
  declares them integer; `Math.min` becomes `min` on `Int`).
* `Date` values are modelled in two ways, following how the source uses
  them: UTC calendar dates (compared component-wise by
  `needsDailyReset`) become the structure `UTCDay`; instants compared by
  `<` (subscription expiry, referral `createdAt`, rate-limiter
  timestamps in milliseconds) become `Int`.
* Nullable DB columns coalesced with `?? 0` in the source are modelled
  as plain `Int` fields (the schema declares them non-null integers
  with default 0, so the coalescing is the identity).
* Each database-transaction function becomes a pure function from its
  read state to its written state plus the list of `CreditRecord` rows
  it inserts; a missing user row is an `Option` that is `none`.
-/

namespace Morph

/-- A UTC calendar date as read off a JS `Date` via
`getUTCFullYear`/`getUTCMonth`/`getUTCDate`. -/
structure UTCDay where
  year : Int
  month : Nat
  day : Nat
deriving DecidableEq, Repr

/-- Source `needsDailyReset(lastResetAt)` from the credits service:
`true` when there is no recorded reset or the recorded reset lies in a
different UTC calendar day (any of day, month, year differ) from the
current day, which we pass explicitly as `today`. -/
def needsDailyReset (lastResetAt : Option UTCDay) (today : UTCDay) : Bool :=
  match lastResetAt with
  | none => true
  | some lastReset =>
    (today.day != lastReset.day) || (today.month != lastReset.month) ||
      (today.year != lastReset.year)

/-- CREDITS_CONFIG.DAILY_LOGIN_REWARD -/
def DAILY_LOGIN_REWARD : Int := 50

/-- CREDITS_CONFIG.SUBSCRIPTION_FREE -/
def SUBSCRIPTION_FREE : Int := 0

/-- CREDITS_CONFIG.SUBSCRIPTION_STARTER -/
def SUBSCRIPTION_STARTER : Int := 1300

/-- CREDITS_CONFIG.SUBSCRIPTION_PRO -/
def SUBSCRIPTION_PRO : Int := 2700

/-- CREDITS_CONFIG.SUBSCRIPTION_MAX -/
def SUBSCRIPTION_MAX : Int := 30000

/-- CREDITS_CONFIG.MIN_RESERVE_CREDITS -/
def MIN_RESERVE_CREDITS : Int := 5

/-- Source `getSubscriptionCreditsLimit(tier, subscriptionExpiresAt)`.
Tiers are kept as the runtime strings; `now` is the instant `new
Date()` of the call. A set but past expiry forces the free limit. -/
def getSubscriptionCreditsLimit (tier : String) (subscriptionExpiresAt : Option Int)
    (now : Int) : Int :=
  let isExpired :=
    match subscriptionExpiresAt with
    | some t => t < now
    | none => false
  if isExpired || tier == "free" then SUBSCRIPTION_FREE
  else
    match tier with
    | "max" => SUBSCRIPTION_MAX
    | "pro" => SUBSCRIPTION_PRO
    | "starter" => SUBSCRIPTION_STARTER
    | _ => SUBSCRIPTION_FREE

/-- Source `getEffectiveTier(tier, expiresAt)`: `"free"` for an unset,
empty, expired or unknown tier, otherwise the stored tier string. -/
def getEffectiveTier (tier : Option String) (expiresAt : Option Int) (now : Int) : String :=
  match tier with
  | none => "free"
  | some t =>
    if t == "" || t == "free" then "free"
    else if (match expiresAt with | some e => decide (e < now) | none => false) then "free"
    else if t == "starter" || t == "pro" || t == "max" then t
    else "free"

/-- The per-user wallet columns of the `user` table that the credit
engine reads and writes. -/
structure Wallet where
  dailyCredits : Int
  dailyCreditsResetAt : Option UTCDay
  subscriptionCredits : Int
  subscriptionCreditsResetAt : Option Int
  bonusCredits : Int
  subscriptionTier : Option String
  subscriptionExpiresAt : Option Int
  stripeSubscriptionId : Option String
deriving DecidableEq, Repr

/-- Wallet well-formedness: the schema declares all three pools as
integers that are at least 0. -/
def Wallet.wf (w : Wallet) : Prop :=
  0 ≤ w.dailyCredits ∧ 0 ≤ w.subscriptionCredits ∧ 0 ≤ w.bonusCredits

instance (w : Wallet) : Decidable w.wf := by
  unfold Wallet.wf; infer_instance

/-- The `CreditsBalance` payload returned by the balance engine. -/
structure CreditsBalance where
  dailyCredits : Int
  subscriptionCredits : Int
  subscriptionCreditsLimit : Int
  bonusCredits : Int
  totalAvailable : Int
  subscriptionResetsAt : Option Int
deriving DecidableEq, Repr

/-- Source `buildCreditsBalance`: packs the pools and computes
`totalAvailable` as their sum. -/
def buildCreditsBalance (dailyCredits subscriptionCredits subscriptionCreditsLimit
    bonusCredits : Int) (subscriptionExpiresAt : Option Int) : CreditsBalance :=
  { dailyCredits := dailyCredits
    subscriptionCredits := subscriptionCredits
    subscriptionCreditsLimit := subscriptionCreditsLimit
    bonusCredits := bonusCredits
    totalAvailable := dailyCredits + subscriptionCredits + bonusCredits
    subscriptionResetsAt := subscriptionExpiresAt }

/-- The `creditPool` column of a `CreditRecord`. -/
inductive CreditPool where
  | daily
  | subscription
  | bonus
  | mixed
deriving DecidableEq, Repr

/-- The `type` column of a `CreditRecord`. -/
inductive CreditRecordType where
  | signup_bonus
  | daily_login
  | generation
  | purchase
  | subscription_reset
  | admin_grant
  | referral_inviter
  | referral_invitee
deriving DecidableEq, Repr

/-- An append-only audit-ledger row (the `metadata` bag carries no
numeric content and is omitted). -/
structure CreditRecord where
  userId : String
  type : CreditRecordType
  amount : Int
  balanceBefore : Int
  balanceAfter : Int
  creditPool : CreditPool
deriving DecidableEq, Repr

/-- Result union of `consumeCredits`. -/
inductive ConsumeCreditsResult where
  | success (creditsConsumed : Int) (balance : CreditsBalance)
  | failure (reason : String) (code : String)
deriving DecidableEq, Repr

/-- The credits consumed reported by a `consumeCredits` result
(`0` for the failure branch, which consumes nothing). -/
def ConsumeCreditsResult.consumed : ConsumeCreditsResult → Int
  | .success c _ => c
  | .failure _ _ => 0

/-- Whether a `consumeCredits` result is the success branch. -/
def ConsumeCreditsResult.isSuccess : ConsumeCreditsResult → Bool
  | .success _ _ => true
  | .failure _ _ => false

/-- What one transaction of the credits service writes back: the
result payload, the updated wallet row (if a user row existed), and
the `creditRecords` rows inserted by this call. -/
structure ConsumeOutcome where
  result : ConsumeCreditsResult
  wallet : Option Wallet
  newRecords : List CreditRecord
deriving DecidableEq, Repr

/-- Source `consumeCredits(userId, cost, metadata)`: three-pool
priority consumption Daily -> Subscription -> Bonus, clamped at zero
per pool, with a single `generation` record written only when
`actualConsumed > 0`. `userData` is the wallet row read at the start
of the transaction (`none` when the user does not exist), `today` the
current UTC day and `now` the current instant. -/
def consumeCredits (userId : String) (userData : Option Wallet) (cost : Int)
    (today : UTCDay) (now : Int) : ConsumeOutcome :=
  match userData with
  | none =>
    { result := .failure "User not found" "USER_NOT_FOUND"
      wallet := none
      newRecords := [] }
  | some w =>
    let effectiveTier := getEffectiveTier w.subscriptionTier w.subscriptionExpiresAt now
    let subscriptionLimit :=
      getSubscriptionCreditsLimit effectiveTier w.subscriptionExpiresAt now
    let reset := needsDailyReset w.dailyCreditsResetAt today
    let dailyCredits0 : Int := if reset then 0 else w.dailyCredits
    let fromDaily := min cost dailyCredits0
    let dailyCredits1 := dailyCredits0 - fromDaily
    let remaining1 := cost - fromDaily
    let fromSubscription := min remaining1 w.subscriptionCredits
    let subscriptionCredits1 := w.subscriptionCredits - fromSubscription
    let remaining2 := remaining1 - fromSubscription
    let fromBonus := min remaining2 w.bonusCredits
    let bonusCredits1 := w.bonusCredits - fromBonus
    let remaining3 := remaining2 - fromBonus
    let actualConsumed := cost - remaining3
    let effectiveOriginalDaily : Int := if reset then 0 else w.dailyCredits
    let balanceBefore := effectiveOriginalDaily + w.subscriptionCredits + w.bonusCredits
    let balanceAfter := dailyCredits1 + subscriptionCredits1 + bonusCredits1
    { result := .success actualConsumed
        (buildCreditsBalance dailyCredits1 subscriptionCredits1 subscriptionLimit
          bonusCredits1 w.subscriptionExpiresAt)
      wallet := some { w with
        dailyCredits := dailyCredits1
        subscriptionCredits := subscriptionCredits1
        bonusCredits := bonusCredits1
        dailyCreditsResetAt := if reset then some today else w.dailyCreditsResetAt }
      newRecords :=
        if actualConsumed > 0 then
          [{ userId := userId
             type := .generation
             amount := -actualConsumed
             balanceBefore := balanceBefore
             balanceAfter := balanceAfter
             creditPool := .mixed }]
        else [] }

/-- What one `grantDailyLoginReward` transaction produces: the
returned balance (`none` when the user does not exist), the wallet
row after the transaction, and the inserted records. -/
structure GrantOutcome where
  balance : Option CreditsBalance
  wallet : Option Wallet
  newRecords : List CreditRecord
deriving DecidableEq, Repr

/-- Source `grantDailyLoginReward(userId)`: when the wallet's last
daily reset is not in the current UTC day, set `dailyCredits` to the
fixed reward, stamp the reset day and insert one `daily_login` record;
otherwise return the current balance unchanged. -/
def grantDailyLoginReward (userId : String) (userData : Option Wallet)
    (today : UTCDay) (now : Int) : GrantOutcome :=
  match userData with
  | none => { balance := none, wallet := none, newRecords := [] }
  | some w =>
    let effectiveTier := getEffectiveTier w.subscriptionTier w.subscriptionExpiresAt now
    let subscriptionLimit :=
      getSubscriptionCreditsLimit effectiveTier w.subscriptionExpiresAt now
    if needsDailyReset w.dailyCreditsResetAt today then
      let balanceBefore := 0 + w.subscriptionCredits + w.bonusCredits
      { balance := some (buildCreditsBalance DAILY_LOGIN_REWARD w.subscriptionCredits
          subscriptionLimit w.bonusCredits w.subscriptionExpiresAt)
        wallet := some { w with
          dailyCredits := DAILY_LOGIN_REWARD
          dailyCreditsResetAt := some today }
        newRecords :=
          [{ userId := userId
             type := .daily_login
             amount := DAILY_LOGIN_REWARD
             balanceBefore := balanceBefore
             balanceAfter := balanceBefore + DAILY_LOGIN_REWARD
             creditPool := .daily }] }
    else
      { balance := some (buildCreditsBalance w.dailyCredits w.subscriptionCredits
          subscriptionLimit w.bonusCredits w.subscriptionExpiresAt)
        wallet := some w
        newRecords := [] }

/-- Source `addBonusCredits(userId, credits)`: unconditional additive
update of `bonusCredits` (no record is written by this primitive). -/
def addBonusCredits (userData : Option Wallet) (credits : Int) : Option Wallet :=
  userData.map fun w => { w with bonusCredits := w.bonusCredits + credits }

/-- Source `resetSubscriptionCredits(userId, tier, expiresAt)`:
overwrites `subscriptionCredits` with the tier-derived limit and
stamps the reset instant. -/
def resetSubscriptionCredits (userData : Option Wallet) (tier : String)
    (expiresAt : Int) (now : Int) : Option Wallet :=
  let creditsAmount := getSubscriptionCreditsLimit tier (some expiresAt) now
  userData.map fun w => { w with
    subscriptionCredits := creditsAmount
    subscriptionCreditsResetAt := some now }

/-- Result union of the admin `grantCredits`. -/
inductive GrantCreditsResult where
  | success (balanceAfter : Int)
  | failure (error : String)
deriving DecidableEq, Repr

/-- What one admin `grantCredits` transaction produces. -/
structure AdminGrantOutcome where
  result : GrantCreditsResult
  wallet : Option Wallet
  newRecords : List CreditRecord
deriving DecidableEq, Repr

/-- Source admin `grantCredits`: validates `1 <= amount <= 100000`,
adds `amount` to `bonusCredits` and inserts one `admin_grant` record
whose balances total all three pools. -/
def grantCredits (targetUserId : String) (amount : Int)
    (userData : Option Wallet) : AdminGrantOutcome :=
  if amount ≤ 0 || amount > 100000 then
    { result := .failure "Amount must be between 1 and 100000"
      wallet := userData
      newRecords := [] }
  else
    match userData with
    | none =>
      { result := .failure "User not found", wallet := none, newRecords := [] }
    | some w =>
      let currentBonus := w.bonusCredits
      let newBonus := currentBonus + amount
      let totalBalanceBefore := currentBonus + w.dailyCredits + w.subscriptionCredits
      let totalBalanceAfter := totalBalanceBefore + amount
      { result := .success newBonus
        wallet := some { w with bonusCredits := newBonus }
        newRecords :=
          [{ userId := targetUserId
             type := .admin_grant
             amount := amount
             balanceBefore := totalBalanceBefore
             balanceAfter := totalBalanceAfter
             creditPool := .bonus }] }

/-- The fields of a Stripe checkout session that
`handleCreditPurchase` reads. `credits` is the `parseInt` of the
`credits` metadata string (`none` for missing metadata or `NaN`). -/
structure CheckoutSession where
  id : String
  userId : Option String
  packageId : Option String
  credits : Option Int
  amount_total : Option Int
  currency : Option String
deriving DecidableEq, Repr

/-- An `orders` table row. -/
structure Order where
  userId : String
  packageId : String
  amount : Int
  currency : String
  credits : Int
  status : String
  stripeSessionId : String
deriving DecidableEq, Repr

/-- The slice of database state a payment-webhook handler touches for
one user: the `orders` table, that user's wallet row (`none` when the
user does not exist) and the `creditRecords` table. -/
structure PurchaseState where
  orders : List Order
  wallet : Option Wallet
  records : List CreditRecord
deriving DecidableEq, Repr

/-- Source `handleCreditPurchase(session)`: validate metadata and the
credits bound, insert the order with on-conflict-do-nothing on
`stripeSessionId` (returning early on a duplicate), add the credits to
`bonusCredits` and insert one `purchase` record. Every early return
leaves the state unchanged. -/
def handleCreditPurchase (s : PurchaseState) (session : CheckoutSession) : PurchaseState :=
  match session.userId, session.packageId, session.credits with
  | some userId, some packageId, some credits =>
    if credits ≤ 0 || credits > 1000000 then s
    else if s.orders.any (fun o => o.stripeSessionId == session.id) then s
    else
      let currentBonus := (s.wallet.map Wallet.bonusCredits).getD 0
      let totalBefore := currentBonus + (s.wallet.map Wallet.dailyCredits).getD 0 +
        (s.wallet.map Wallet.subscriptionCredits).getD 0
      { orders := s.orders ++
          [{ userId := userId
             packageId := packageId
             amount := session.amount_total.getD 0
             currency := session.currency.getD "usd"
             credits := credits
             status := "completed"
             stripeSessionId := session.id }]
        wallet := s.wallet.map fun w => { w with bonusCredits := w.bonusCredits + credits }
        records := s.records ++
          [{ userId := userId
             type := .purchase
             amount := credits
             balanceBefore := totalBefore
             balanceAfter := totalBefore + credits
             creditPool := .bonus }] }
  | _, _, _ => s

/-- Source `handleSubscriptionCheckoutCompleted(session)`: validate
metadata and tier, insert the order idempotently on `stripeSessionId`,
overwrite the wallet's subscription fields with the tier-derived
amount and insert one `subscription_reset` record. -/
def handleSubscriptionCheckoutCompleted (s : PurchaseState) (sessionId : String)
    (userId planId : Option String) (amountTotal : Option Int) (currency : Option String)
    (subscriptionId : Option String) (currentPeriodEnd : Int) (now : Int) : PurchaseState :=
  match userId, planId with
  | some uid, some pid =>
    if !(pid == "starter" || pid == "pro" || pid == "max") then s
    else
      match subscriptionId with
      | none => s
      | some subId =>
        let subscriptionCreditsAmount :=
          getSubscriptionCreditsLimit pid (some currentPeriodEnd) now
        if s.orders.any (fun o => o.stripeSessionId == sessionId) then s
        else
          { orders := s.orders ++
              [{ userId := uid
                 packageId := pid ++ "-subscription"
                 amount := amountTotal.getD 0
                 currency := currency.getD "usd"
                 credits := subscriptionCreditsAmount
                 status := "completed"
                 stripeSessionId := sessionId }]
            wallet := s.wallet.map fun w => { w with
              subscriptionTier := some pid
              subscriptionExpiresAt := some currentPeriodEnd
              stripeSubscriptionId := some subId
              subscriptionCredits := subscriptionCreditsAmount
              subscriptionCreditsResetAt := some now }
            records := s.records ++
              [{ userId := uid
                 type := .subscription_reset
                 amount := subscriptionCreditsAmount
                 balanceBefore := 0
                 balanceAfter := subscriptionCreditsAmount
                 creditPool := .subscription }] }
  | _, _ => s

/-- The fields of a Stripe subscription object that
`handleSubscriptionUpdated` reads. `planId` is `metadata?.planId`
(`none` when missing or empty, in which case the source falls back to
`"pro"`). -/
structure StripeSubscription where
  id : String
  status : String
  current_period_end : Int
  planId : Option String
deriving DecidableEq, Repr

/-- What `handleSubscriptionUpdated` writes back for the matched
user. -/
structure SubUpdateOutcome where
  wallet : Option Wallet
  newRecords : List CreditRecord
deriving DecidableEq, Repr

/-- Source `handleSubscriptionUpdated(subscription)`: resolves the
tier from status and metadata; when the status is `active` or
`trialing` it overwrites the subscription fields including
`subscriptionCredits` with the tier-derived amount, otherwise it only
updates tier/expiry/subscription-id. It inserts no credit record on
either branch. -/
def handleSubscriptionUpdated (userData : Option Wallet) (sub : StripeSubscription)
    (now : Int) : SubUpdateOutcome :=
  match userData with
  | none => { wallet := none, newRecords := [] }
  | some w =>
    let isActive := sub.status == "active" || sub.status == "trialing"
    let planId := sub.planId.getD "pro"
    let tier :=
      if isActive && (planId == "starter" || planId == "pro" || planId == "max") then planId
      else "free"
    let subscriptionCreditsAmount :=
      getSubscriptionCreditsLimit tier (some sub.current_period_end) now
    if isActive then
      { wallet := some { w with
          subscriptionTier := some tier
          subscriptionExpiresAt := some sub.current_period_end
          stripeSubscriptionId := some sub.id
          subscriptionCredits := subscriptionCreditsAmount
          subscriptionCreditsResetAt := some now }
        newRecords := [] }
    else
      { wallet := some { w with
          subscriptionTier := some tier
          subscriptionExpiresAt := some sub.current_period_end
          stripeSubscriptionId := some sub.id }
        newRecords := [] }

/-- REFERRAL_CONFIG.REFERRER_REWARD -/
def REFERRER_REWARD : Int := 30

/-- REFERRAL_CONFIG.REFERRED_REWARD -/
def REFERRED_REWARD : Int := 30

/-- REFERRAL_CONFIG.MONTHLY_LIMIT -/
def MONTHLY_LIMIT : Int := 300

/-- REFERRAL_CONFIG.MAX_REFERRALS_PER_IP_PER_DAY -/
def MAX_REFERRALS_PER_IP_PER_DAY : Nat := 5

/-- The columns of a `user` row that the referral engine reads and
writes. -/
structure UserRow where
  id : String
  dailyCredits : Int
  subscriptionCredits : Int
  bonusCredits : Int
  referralCreditsThisMonth : Int
  totalReferralCredits : Int
  totalReferrals : Int
deriving DecidableEq, Repr

/-- A `referrals` table row. `createdAt` is the insertion instant in
milliseconds. -/
structure Referral where
  referrerId : String
  referredId : String
  referrerCredits : Int
  referredCredits : Int
  status : String
  ipAddress : String
  createdAt : Int
deriving DecidableEq, Repr

/-- The slice of database state the referral engine touches. -/
structure RefState where
  users : List UserRow
  referrals : List Referral
  records : List CreditRecord
deriving DecidableEq, Repr

/-- Result payload of `applyReferralCode`. -/
structure ApplyReferralResult where
  success : Bool
  code : Option String
deriving DecidableEq, Repr

/-- Lookup of a user row by id (`findFirst` on the `user` table). -/
def findUser (users : List UserRow) (uid : String) : Option UserRow :=
  users.find? (fun u => u.id == uid)

/-- Update of the user row with the given id (`update ... where id =`;
a no-op when no row matches). -/
def updateUser (users : List UserRow) (uid : String) (f : UserRow → UserRow) :
    List UserRow :=
  users.map fun u => if u.id == uid then f u else u

/-- Source `applyReferralCode(referredUserId, referrerUserId,
headers)`: the five checks (self-referral, already applied, referrer
exists, monthly cap, per-IP daily cap) in order, then the referral
insert, both balance updates, and the two credit records, all in one
transaction. `ip` is the resolved client IP, `todayStart` the start of
the current UTC day and `now` the insertion instant. -/
def applyReferralCode (referredUserId referrerUserId ip : String)
    (todayStart now : Int) (st : RefState) : ApplyReferralResult × RefState :=
  if referredUserId == referrerUserId then
    ({ success := false, code := some "SELF_REFERRAL" }, st)
  else
    match st.referrals.find? (fun r => r.referredId == referredUserId) with
    | some _ => ({ success := false, code := some "ALREADY_APPLIED" }, st)
    | none =>
      match findUser st.users referrerUserId with
      | none => ({ success := false, code := some "REFERRER_NOT_FOUND" }, st)
      | some referrer =>
        if MONTHLY_LIMIT ≤ referrer.referralCreditsThisMonth then
          ({ success := false, code := some "MONTHLY_LIMIT" }, st)
        else
          let ipCount := (st.referrals.filter
            (fun r => r.ipAddress == ip && todayStart ≤ r.createdAt)).length
          if MAX_REFERRALS_PER_IP_PER_DAY ≤ ipCount then
            ({ success := false, code := some "IP_LIMIT" }, st)
          else
            let newReferral : Referral :=
              { referrerId := referrerUserId
                referredId := referredUserId
                referrerCredits := REFERRER_REWARD
                referredCredits := REFERRED_REWARD
                status := "completed"
                ipAddress := ip
                createdAt := now }
            let users1 := updateUser st.users referrerUserId fun u => { u with
              bonusCredits := u.bonusCredits + REFERRER_REWARD
              referralCreditsThisMonth := u.referralCreditsThisMonth + REFERRER_REWARD
              totalReferralCredits := u.totalReferralCredits + REFERRER_REWARD
              totalReferrals := u.totalReferrals + 1 }
            let users2 := updateUser users1 referredUserId fun u => { u with
              bonusCredits := u.bonusCredits + REFERRED_REWARD }
            let referrerTotal :=
              match findUser users2 referrerUserId with
              | some u => u.dailyCredits + u.subscriptionCredits + u.bonusCredits
              | none => 0
            let referredTotal :=
              match findUser users2 referredUserId with
              | some u => u.dailyCredits + u.subscriptionCredits + u.bonusCredits
              | none => 0
            ({ success := true, code := none },
             { users := users2
               referrals := st.referrals ++ [newReferral]
               records := st.records ++
                 [{ userId := referrerUserId
                    type := .referral_inviter
                    amount := REFERRER_REWARD
                    balanceBefore := referrerTotal - REFERRER_REWARD
                    balanceAfter := referrerTotal
                    creditPool := .bonus },
                  { userId := referredUserId
                    type := .referral_invitee
                    amount := REFERRED_REWARD
                    balanceBefore := referredTotal - REFERRED_REWARD
                    balanceAfter := referredTotal
                    creditPool := .bonus }] })

/-- Result of one `checkRateLimit` call. -/
structure RateLimitResult where
  limited : Bool
  remaining : Int
  resetMs : Int
deriving DecidableEq, Repr

/-- Source `checkRateLimit(key, config)`, restricted to the one key it
touches: `timestamps` is the stored list for that key (empty when
absent), and the function returns the result plus the list stored
back. `entry.timestamps[0]` is modelled as `headD 0`, read only when
the kept list is nonempty. -/
def checkRateLimit (timestamps : List Int) (windowMs maxRequests : Int)
    (now : Int) : RateLimitResult × List Int :=
  let windowStart := now - windowMs
  let kept := timestamps.filter (fun ts => windowStart < ts)
  if maxRequests ≤ (kept.length : Int) then
    let oldestInWindow := kept.headD 0
    let resetMs := oldestInWindow + windowMs - now
    ({ limited := true, remaining := 0, resetMs := max 0 resetMs }, kept)
  else
    ({ limited := false
       remaining := maxRequests - ((kept.length : Int) + 1)
       resetMs := windowMs },
     kept ++ [now])

/-- The total balance available to a `consumeCredits` call on wallet
`w` at UTC day `today`: the post-reset daily pool plus the
subscription and bonus pools, as computed at the start of
`consumeCredits`. -/
def availableCredits (w : Wallet) (today : UTCDay) : Int :=
  (if needsDailyReset w.dailyCreditsResetAt today then 0 else w.dailyCredits) +
    w.subscriptionCredits + w.bonusCredits

/-- Trace check over a sequence of `consumeCredits` calls, each given
by a cost, the UTC day and the instant of the call: every call
consumes at most the balance available at that call, and the wallet
after every call is well-formed (no pool negative). -/
def consumeTraceOk (userId : String) (w : Wallet) :
    List (Int × UTCDay × Int) → Bool
  | [] => true
  | (cost, today, now) :: rest =>
    let out := consumeCredits userId (some w) cost today now
    let w' := out.wallet.getD w
    decide (out.result.consumed ≤ availableCredits w today) && decide w'.wf &&
      consumeTraceOk userId w' rest

/-! ## Theorems -/

/-- One `consumeCredits` call on a well-formed wallet consumes at most
the available balance and leaves a well-formed wallet. -/
theorem consumeCredits_step (userId : String) (w : Wallet) (cost : Int)
    (today : UTCDay) (now : Int) (hwf : w.wf) :
    (consumeCredits userId (some w) cost today now).result.consumed ≤
      availableCredits w today ∧
    (((consumeCredits userId (some w) cost today now).wallet).getD w).wf := by
  obtain ⟨hwd, hws, hwb⟩ := hwf
  have hnn : (0 : Int) ≤
      if needsDailyReset w.dailyCreditsResetAt today then 0 else w.dailyCredits := by
    split <;> omega
  refine ⟨?_, ?_⟩
  · simp only [consumeCredits, ConsumeCreditsResult.consumed, availableCredits]
    omega
  · simp only [consumeCredits, Option.getD_some, Wallet.wf]
    refine ⟨?_, ?_, ?_⟩ <;> omega

/-- C1: for every existing user, `consume(userId, cost)` with `cost >= 0`
deducts from the daily pool first, then the subscription pool, then the
bonus pool, each deduction being `min(remaining, poolBalance)` (the
daily pool balance being its value after the due daily reset), and
`actualConsumed` is the sum of the three deductions; in particular for
daily=20, subscription=30, bonus=50, cost=40 the result is daily=0,
subscription=10, bonus=50, actualConsumed=40 (see the witness). -/
theorem C1_consume_priority (userId : String) (w : Wallet) (cost : Int)
    (today : UTCDay) (now : Int) (d0 fromDaily fromSubscription fromBonus : Int)
    (hcost : 0 ≤ cost)
    (hd0 : d0 = if needsDailyReset w.dailyCreditsResetAt today then 0 else w.dailyCredits)
    (hfd : fromDaily = min cost d0)
    (hfs : fromSubscription = min (cost - fromDaily) w.subscriptionCredits)
    (hfb : fromBonus = min (cost - fromDaily - fromSubscription) w.bonusCredits) :
    ∃ w', (consumeCredits userId (some w) cost today now).wallet = some w' ∧
      w'.dailyCredits = d0 - fromDaily ∧
      w'.subscriptionCredits = w.subscriptionCredits - fromSubscription ∧
      w'.bonusCredits = w.bonusCredits - fromBonus ∧
      (consumeCredits userId (some w) cost today now).result.consumed =
        fromDaily + fromSubscription + fromBonus := by
  subst hfb
  subst hfs
  subst hfd
  subst hd0
  cases hr : needsDailyReset w.dailyCreditsResetAt today <;>
    refine ⟨_, rfl, ?_, ?_, ?_, ?_⟩ <;>
    simp only [consumeCredits, ConsumeCreditsResult.consumed, hr] <;>
    omega

/-- Witness for C1 at the spec's concrete example: daily=20,
subscription=30, bonus=50, cost=40 gives daily=0, subscription=10,
bonus=50, actualConsumed=40. -/
theorem C1_consume_priority_witness :
    (0 : Int) ≤ 40 ∧
    ∃ w', (consumeCredits "u"
          (some ⟨20, some ⟨2025, 5, 10⟩, 30, none, 50, none, none, none⟩)
          40 ⟨2025, 5, 10⟩ 0).wallet = some w' ∧
      w'.dailyCredits = 0 ∧ w'.subscriptionCredits = 10 ∧ w'.bonusCredits = 50 ∧
      (consumeCredits "u"
          (some ⟨20, some ⟨2025, 5, 10⟩, 30, none, 50, none, none, none⟩)
          40 ⟨2025, 5, 10⟩ 0).result.consumed = 40 := by
  refine ⟨by norm_num, ?_⟩
  obtain ⟨w', hw, h1, h2, h3, h4⟩ :=
    C1_consume_priority "u" ⟨20, some ⟨2025, 5, 10⟩, 30, none, 50, none, none, none⟩
      40 ⟨2025, 5, 10⟩ 0 20 20 20 0 (by norm_num) (by decide) (by decide) (by decide)
      (by decide)
  exact ⟨w', hw, h1.trans (by decide), h2.trans (by decide), h3.trans (by decide),
    h4.trans (by decide)⟩

/-- C2: for every sequence of `consume` calls on a well-formed wallet,
the amount deducted by each call never exceeds the total balance
available at that call, and no pool balance ever becomes negative. -/
theorem C2_consume_sequence_invariant (userId : String) (w : Wallet)
    (trace : List (Int × UTCDay × Int)) (hwf : w.wf) :
    consumeTraceOk userId w trace = true := by
  induction trace generalizing w with
  | nil => rfl
  | cons step rest ih =>
    obtain ⟨cost, today, now⟩ := step
    have h := consumeCredits_step userId w cost today now hwf
    simp only [consumeTraceOk, Bool.and_eq_true, decide_eq_true_eq]
    exact ⟨⟨h.1, h.2⟩, ih _ h.2⟩

/-- Witness for C2 on a concrete wallet and a three-call trace
(including an over-draining call and a negative-cost call). -/
theorem C2_consume_sequence_invariant_witness :
    (⟨20, some ⟨2025, 5, 10⟩, 30, none, 50, none, none, none⟩ : Wallet).wf ∧
    consumeTraceOk "u" ⟨20, some ⟨2025, 5, 10⟩, 30, none, 50, none, none, none⟩
      [(40, ⟨2025, 5, 10⟩, 0), (1000, ⟨2025, 5, 10⟩, 1), (-3, ⟨2025, 5, 11⟩, 2),
        (7, ⟨2025, 5, 11⟩, 3)] = true :=
  ⟨by decide,
    C2_consume_sequence_invariant "u"
      ⟨20, some ⟨2025, 5, 10⟩, 30, none, 50, none, none, none⟩
      [(40, ⟨2025, 5, 10⟩, 0), (1000, ⟨2025, 5, 10⟩, 1), (-3, ⟨2025, 5, 11⟩, 2),
        (7, ⟨2025, 5, 11⟩, 3)] (by decide)⟩

/-- C3: when the total available balance is smaller than the requested
cost, `consume` still returns success, with `actualConsumed` equal to
the total that was available (partial consumption is not an error); in
particular daily=3, subscription=0, bonus=1, cost=10 succeeds with
actualConsumed=4 (see the witness). -/
theorem C3_partial_consumption (userId : String) (w : Wallet) (cost : Int)
    (today : UTCDay) (now : Int) (d0 avail : Int) (hwf : w.wf)
    (hd0 : d0 = if needsDailyReset w.dailyCreditsResetAt today then 0 else w.dailyCredits)
    (havail : avail = d0 + w.subscriptionCredits + w.bonusCredits)
    (hlt : avail < cost) :
    (consumeCredits userId (some w) cost today now).result.isSuccess = true ∧
    (consumeCredits userId (some w) cost today now).result.consumed = avail := by
  obtain ⟨hwd, hws, hwb⟩ := hwf
  have hd0nn : 0 ≤ d0 := by rw [hd0]; split <;> omega
  refine ⟨?_, ?_⟩
  · simp only [consumeCredits, ConsumeCreditsResult.isSuccess]
  · simp only [consumeCredits, ConsumeCreditsResult.consumed, ← hd0]
    omega

/-- Witness for C3 at the spec's concrete example: daily=3,
subscription=0, bonus=1, cost=10 succeeds with actualConsumed=4. -/
theorem C3_partial_consumption_witness :
    (⟨3, some ⟨2025, 5, 10⟩, 0, none, 1, none, none, none⟩ : Wallet).wf ∧
    (3 + 0 + 1 : Int) < 10 ∧
    (consumeCredits "u" (some ⟨3, some ⟨2025, 5, 10⟩, 0, none, 1, none, none, none⟩)
        10 ⟨2025, 5, 10⟩ 0).result.isSuccess = true ∧
    (consumeCredits "u" (some ⟨3, some ⟨2025, 5, 10⟩, 0, none, 1, none, none, none⟩)
        10 ⟨2025, 5, 10⟩ 0).result.consumed = 4 := by
  refine ⟨by decide, by norm_num, ?_⟩
  obtain ⟨h1, h2⟩ :=
    C3_partial_consumption "u" ⟨3, some ⟨2025, 5, 10⟩, 0, none, 1, none, none, none⟩
      10 ⟨2025, 5, 10⟩ 0 3 4 (by decide) (by decide) (by norm_num) (by norm_num)
  exact ⟨h1, h2⟩

/-- C10: `consume` never validates that `cost` is positive: for every
existing (well-formed) user and every `cost < 0`, it returns success
with `actualConsumed = cost`, increases the daily pool by `-cost` above
its post-reset value, leaves the subscription and bonus pools
unchanged, and appends no `CreditRecord`. -/
theorem C10_negative_cost (userId : String) (w : Wallet) (cost : Int)
    (today : UTCDay) (now : Int) (d0 : Int) (hwf : w.wf) (hneg : cost < 0)
    (hd0 : d0 = if needsDailyReset w.dailyCreditsResetAt today then 0 else w.dailyCredits) :
    ∃ w', (consumeCredits userId (some w) cost today now).wallet = some w' ∧
      (consumeCredits userId (some w) cost today now).result.isSuccess = true ∧
      (consumeCredits userId (some w) cost today now).result.consumed = cost ∧
      w'.dailyCredits = d0 - cost ∧
      w'.subscriptionCredits = w.subscriptionCredits ∧
      w'.bonusCredits = w.bonusCredits ∧
      (consumeCredits userId (some w) cost today now).newRecords = [] := by
  obtain ⟨hwd, hws, hwb⟩ := hwf
  subst hd0
  cases hr : needsDailyReset w.dailyCreditsResetAt today <;>
    refine ⟨_, rfl, ?_, ?_, ?_, ?_, ?_, ?_⟩ <;>
    simp only [consumeCredits, ConsumeCreditsResult.consumed,
      ConsumeCreditsResult.isSuccess, hr, reduceIte] <;>
    first
      | rfl
      | omega
      | (rw [if_neg]; omega)

/-- Witness for C10: a wallet with daily=20, subscription=30, bonus=50
and cost=-5 gives success, actualConsumed=-5, daily=25, unchanged
subscription and bonus, and no record. -/
theorem C10_negative_cost_witness :
    (⟨20, some ⟨2025, 5, 10⟩, 30, none, 50, none, none, none⟩ : Wallet).wf ∧
    (-5 : Int) < 0 ∧
    ∃ w', (consumeCredits "u" (some ⟨20, some ⟨2025, 5, 10⟩, 30, none, 50, none, none, none⟩)
        (-5) ⟨2025, 5, 10⟩ 0).wallet = some w' ∧
      (consumeCredits "u" (some ⟨20, some ⟨2025, 5, 10⟩, 30, none, 50, none, none, none⟩)
        (-5) ⟨2025, 5, 10⟩ 0).result.isSuccess = true ∧
      (consumeCredits "u" (some ⟨20, some ⟨2025, 5, 10⟩, 30, none, 50, none, none, none⟩)
        (-5) ⟨2025, 5, 10⟩ 0).result.consumed = -5 ∧
      w'.dailyCredits = 25 ∧ w'.subscriptionCredits = 30 ∧ w'.bonusCredits = 50 ∧
      (consumeCredits "u" (some ⟨20, some ⟨2025, 5, 10⟩, 30, none, 50, none, none, none⟩)
        (-5) ⟨2025, 5, 10⟩ 0).newRecords = [] := by
  refine ⟨by decide, by norm_num, ?_⟩
  obtain ⟨w', hw, h1, h2, h3, h4, h5, h6⟩ :=
    C10_negative_cost "u" ⟨20, some ⟨2025, 5, 10⟩, 30, none, 50, none, none, none⟩
      (-5) ⟨2025, 5, 10⟩ 0 20 (by decide) (by norm_num) (by decide)
  exact ⟨w', hw, h1, h2, h3.trans (by decide), h4.trans (by decide),
    h5.trans (by decide), h6⟩

/-- C4: every `CreditRecord` written by any operation (consume, daily
login grant, credit purchase, subscription checkout reset, admin
grant, referral) satisfies `balanceAfter = balanceBefore + amount`.
For the handlers that carry the records table in their state, a record
of the output state is either a pre-existing record or satisfies the
identity. -/
theorem C4_record_balance_invariant :
    (∀ userId ow cost today now r,
        r ∈ (consumeCredits userId ow cost today now).newRecords →
        r.balanceAfter = r.balanceBefore + r.amount) ∧
    (∀ userId ow today now r,
        r ∈ (grantDailyLoginReward userId ow today now).newRecords →
        r.balanceAfter = r.balanceBefore + r.amount) ∧
    (∀ s session r,
        r ∈ (handleCreditPurchase s session).records →
        r ∈ s.records ∨ r.balanceAfter = r.balanceBefore + r.amount) ∧
    (∀ s sessionId userId planId amountTotal currency subscriptionId periodEnd now r,
        r ∈ (handleSubscriptionCheckoutCompleted s sessionId userId planId amountTotal
            currency subscriptionId periodEnd now).records →
        r ∈ s.records ∨ r.balanceAfter = r.balanceBefore + r.amount) ∧
    (∀ targetUserId amount ow r,
        r ∈ (grantCredits targetUserId amount ow).newRecords →
        r.balanceAfter = r.balanceBefore + r.amount) ∧
    (∀ a b ip todayStart now st r,
        r ∈ (applyReferralCode a b ip todayStart now st).2.records →
        r ∈ st.records ∨ r.balanceAfter = r.balanceBefore + r.amount) := by
  refine ⟨?_, ?_, ?_, ?_, ?_, ?_⟩
  · rintro userId (_ | w) cost today now r hr
    · simp [consumeCredits] at hr
    · simp only [consumeCredits, List.mem_ite_nil_right, List.mem_singleton] at hr
      obtain ⟨-, rfl⟩ := hr
      simp only
      omega
  · rintro userId (_ | w) today now r hr
    · simp [grantDailyLoginReward] at hr
    · simp only [grantDailyLoginReward] at hr
      split at hr
      · simp only [List.mem_singleton] at hr
        subst hr
        first
          | (simp only; omega)
          | simp only
      · simp at hr
  · rintro s ⟨sid, uid, pid, cr, amt, cur⟩ r hr
    rcases uid with _ | uid
    · exact Or.inl hr
    rcases pid with _ | pid
    · exact Or.inl hr
    rcases cr with _ | cr
    · exact Or.inl hr
    simp only [handleCreditPurchase] at hr
    split at hr
    · exact Or.inl hr
    split at hr
    · exact Or.inl hr
    simp only [List.mem_append, List.mem_singleton] at hr
    rcases hr with hr | rfl
    · exact Or.inl hr
    · right
      first
        | (simp only; omega)
        | simp only
  · rintro s sessionId uid pid amountTotal currency subscriptionId periodEnd now r hr
    rcases uid with _ | uid
    · exact Or.inl hr
    rcases pid with _ | pid
    · exact Or.inl hr
    rcases subscriptionId with _ | subId
    · simp only [handleSubscriptionCheckoutCompleted] at hr
      split at hr
      · exact Or.inl hr
      · exact Or.inl hr
    · simp only [handleSubscriptionCheckoutCompleted] at hr
      split at hr
      · exact Or.inl hr
      split at hr
      · exact Or.inl hr
      simp only [List.mem_append, List.mem_singleton] at hr
      rcases hr with hr | rfl
      · exact Or.inl hr
      · right
        first
          | (simp only; omega)
          | simp only
  · rintro targetUserId amount ow r hr
    simp only [grantCredits] at hr
    split at hr
    · simp at hr
    rcases ow with _ | w
    · simp at hr
    simp only [List.mem_singleton] at hr
    subst hr
    first
      | (simp only; omega)
      | simp only
  · rintro a b ip todayStart now st r hr
    simp only [applyReferralCode] at hr
    split at hr
    · exact Or.inl hr
    split at hr
    · exact Or.inl hr
    split at hr
    · exact Or.inl hr
    split at hr
    · exact Or.inl hr
    split at hr
    · exact Or.inl hr
    simp only [List.mem_append, List.mem_cons, List.mem_singleton,
      List.not_mem_nil, or_false] at hr
    rcases hr with hr | rfl | rfl
    · exact Or.inl hr
    · right
      first
        | (simp only; omega)
        | simp only
    · right
      first
        | (simp only; omega)
        | simp only

/-- Witness for C4: the record written by a concrete `consumeCredits`
call satisfies the balance identity. -/
theorem C4_record_balance_invariant_witness :
    (⟨"u", CreditRecordType.generation, -40, 100, 60, CreditPool.mixed⟩ : CreditRecord) ∈
      (consumeCredits "u" (some ⟨20, some ⟨2025, 5, 10⟩, 30, none, 50, none, none, none⟩)
        40 ⟨2025, 5, 10⟩ 0).newRecords ∧
    (⟨"u", CreditRecordType.generation, -40, 100, 60, CreditPool.mixed⟩ :
        CreditRecord).balanceAfter =
      (⟨"u", CreditRecordType.generation, -40, 100, 60, CreditPool.mixed⟩ :
        CreditRecord).balanceBefore +
      (⟨"u", CreditRecordType.generation, -40, 100, 60, CreditPool.mixed⟩ :
        CreditRecord).amount :=
  ⟨by decide,
    C4_record_balance_invariant.1 "u"
      (some ⟨20, some ⟨2025, 5, 10⟩, 30, none, 50, none, none, none⟩) 40 ⟨2025, 5, 10⟩ 0
      ⟨"u", CreditRecordType.generation, -40, 100, 60, CreditPool.mixed⟩ (by decide)⟩

/-- The daily reset check is false when the recorded reset day is the
current day itself. -/
theorem needsDailyReset_same (today : UTCDay) :
    needsDailyReset (some today) today = false := by
  simp [needsDailyReset]

/-- C6: `grantDailyLoginReward` is idempotent per UTC day. If the
wallet's reset day is already the current day, the call is a no-op
returning the current balance and writing no record; if a reset is
due, the call writes exactly one record, and a second call on the
resulting wallet in the same day returns the same balance, leaves the
wallet unchanged and writes no record — so two calls in one day
produce exactly one record and a stable balance. -/
theorem C6_daily_login_idempotent (userId : String) (w : Wallet) (today : UTCDay)
    (now : Int) :
    (needsDailyReset w.dailyCreditsResetAt today = false →
      grantDailyLoginReward userId (some w) today now =
        { balance := some (buildCreditsBalance w.dailyCredits w.subscriptionCredits
            (getSubscriptionCreditsLimit
              (getEffectiveTier w.subscriptionTier w.subscriptionExpiresAt now)
              w.subscriptionExpiresAt now)
            w.bonusCredits w.subscriptionExpiresAt)
          wallet := some w
          newRecords := [] }) ∧
    (needsDailyReset w.dailyCreditsResetAt today = true →
      ∃ w1, (grantDailyLoginReward userId (some w) today now).wallet = some w1 ∧
        (grantDailyLoginReward userId (some w) today now).newRecords.length = 1 ∧
        grantDailyLoginReward userId (some w1) today now =
          { balance := (grantDailyLoginReward userId (some w) today now).balance
            wallet := some w1
            newRecords := [] }) := by
  constructor
  · intro h
    simp [grantDailyLoginReward, h]
  · intro h
    refine ⟨({ w with dailyCredits := DAILY_LOGIN_REWARD, dailyCreditsResetAt := some today } : Wallet), ?_, ?_, ?_⟩ <;>
      simp [grantDailyLoginReward, h, needsDailyReset_same]

/-- Witness for C6: on a wallet last reset the previous day, the first
call grants and writes one record, the second call the same day is a
no-op with the same balance. -/
theorem C6_daily_login_idempotent_witness :
    needsDailyReset (some ⟨2025, 5, 9⟩) ⟨2025, 5, 10⟩ = true ∧
    (∃ w1, (grantDailyLoginReward "u"
          (some ⟨0, some ⟨2025, 5, 9⟩, 7, none, 9, none, none, none⟩)
          ⟨2025, 5, 10⟩ 0).wallet = some w1 ∧
      (grantDailyLoginReward "u"
          (some ⟨0, some ⟨2025, 5, 9⟩, 7, none, 9, none, none, none⟩)
          ⟨2025, 5, 10⟩ 0).newRecords.length = 1 ∧
      grantDailyLoginReward "u" (some w1) ⟨2025, 5, 10⟩ 0 =
        { balance := (grantDailyLoginReward "u"
            (some ⟨0, some ⟨2025, 5, 9⟩, 7, none, 9, none, none, none⟩)
            ⟨2025, 5, 10⟩ 0).balance
          wallet := some w1
          newRecords := [] }) :=
  ⟨by decide,
    (C6_daily_login_idempotent "u" ⟨0, some ⟨2025, 5, 9⟩, 7, none, 9, none, none, none⟩
      ⟨2025, 5, 10⟩ 0).2 (by decide)⟩

/-- C5: applying the same credit-purchase webhook event twice results
in exactly one order row for the session id, exactly one bonus-credit
increment, and exactly one added purchase record; the second delivery
is a no-op on the state (the handler returns without error on the
duplicate branch). Stated for a state whose orders do not yet contain
the session id and a valid event. -/
theorem C5_purchase_webhook_idempotent (s : PurchaseState) (session : CheckoutSession)
    (userId packageId : String) (credits : Int) (w : Wallet)
    (huid : session.userId = some userId) (hpid : session.packageId = some packageId)
    (hcr : session.credits = some credits) (hpos : 0 < credits) (hle : credits ≤ 1000000)
    (hw : s.wallet = some w)
    (hfresh : ∀ o ∈ s.orders, o.stripeSessionId ≠ session.id) :
    handleCreditPurchase (handleCreditPurchase s session) session =
      handleCreditPurchase s session ∧
    (handleCreditPurchase s session).orders.countP
      (fun o => o.stripeSessionId == session.id) = 1 ∧
    (handleCreditPurchase s session).wallet =
      some { w with bonusCredits := w.bonusCredits + credits } ∧
    (handleCreditPurchase s session).records.countP
      (fun r => r.type == CreditRecordType.purchase) =
      s.records.countP (fun r => r.type == CreditRecordType.purchase) + 1 := by
  obtain ⟨sid, uid, pid, cr, amt, cur⟩ := session
  simp only at huid hpid hcr hfresh
  subst huid
  subst hpid
  subst hcr
  have hval : ¬((decide (credits ≤ 0) || decide (credits > 1000000)) = true) := by
    simp only [Bool.or_eq_true, decide_eq_true_eq, not_or]
    omega
  have hany : ¬((s.orders.any fun o => o.stripeSessionId == sid) = true) := by
    simp only [List.any_eq_true, not_exists]
    intro o
    simp only [not_and, beq_iff_eq]
    exact fun ho => hfresh o ho
  have hzero : s.orders.countP (fun o => o.stripeSessionId == sid) = 0 := by
    rw [List.countP_eq_zero]
    intro o ho
    simp only [beq_iff_eq]
    exact hfresh o ho
  have hs1 : handleCreditPurchase s ⟨sid, some userId, some packageId, some credits, amt, cur⟩ =
      { orders := s.orders ++
          [{ userId := userId
             packageId := packageId
             amount := amt.getD 0
             currency := cur.getD "usd"
             credits := credits
             status := "completed"
             stripeSessionId := sid }]
        wallet := s.wallet.map fun v => { v with bonusCredits := v.bonusCredits + credits }
        records := s.records ++
          [{ userId := userId
             type := .purchase
             amount := credits
             balanceBefore := (s.wallet.map Wallet.bonusCredits).getD 0 +
               (s.wallet.map Wallet.dailyCredits).getD 0 +
               (s.wallet.map Wallet.subscriptionCredits).getD 0
             balanceAfter := (s.wallet.map Wallet.bonusCredits).getD 0 +
               (s.wallet.map Wallet.dailyCredits).getD 0 +
               (s.wallet.map Wallet.subscriptionCredits).getD 0 + credits
             creditPool := .bonus }] } := by
    simp only [handleCreditPurchase]
    rw [if_neg hval, if_neg hany]
  refine ⟨?_, ?_, ?_, ?_⟩
  · rw [hs1]
    simp only [handleCreditPurchase]
    rw [if_neg hval]
    simp [List.any_append]
  · rw [hs1]
    simp only [List.countP_append, hzero]
    simp
  · rw [hs1, hw]
    simp
  · rw [hs1]
    simp only [List.countP_append]
    simp

/-- Witness for C5 at a concrete fresh state and a valid purchase
session for 100 credits. -/
theorem C5_purchase_webhook_idempotent_witness :
    (0 : Int) < 100 ∧ (100 : Int) ≤ 1000000 ∧
    handleCreditPurchase (handleCreditPurchase
        ⟨[], some ⟨0, none, 0, none, 5, none, none, none⟩, []⟩
        ⟨"sess1", some "u", some "pk", some 100, some 500, some "usd"⟩)
      ⟨"sess1", some "u", some "pk", some 100, some 500, some "usd"⟩ =
      handleCreditPurchase ⟨[], some ⟨0, none, 0, none, 5, none, none, none⟩, []⟩
        ⟨"sess1", some "u", some "pk", some 100, some 500, some "usd"⟩ ∧
    (handleCreditPurchase ⟨[], some ⟨0, none, 0, none, 5, none, none, none⟩, []⟩
        ⟨"sess1", some "u", some "pk", some 100, some 500, some "usd"⟩).orders.countP
      (fun o => o.stripeSessionId == "sess1") = 1 ∧
    (handleCreditPurchase ⟨[], some ⟨0, none, 0, none, 5, none, none, none⟩, []⟩
        ⟨"sess1", some "u", some "pk", some 100, some 500, some "usd"⟩).wallet =
      some ⟨0, none, 0, none, 5 + 100, none, none, none⟩ ∧
    (handleCreditPurchase ⟨[], some ⟨0, none, 0, none, 5, none, none, none⟩, []⟩
        ⟨"sess1", some "u", some "pk", some 100, some 500, some "usd"⟩).records.countP
      (fun r => r.type == CreditRecordType.purchase) = 0 + 1 := by
  obtain ⟨h1, h2, h3, h4⟩ :=
    C5_purchase_webhook_idempotent ⟨[], some ⟨0, none, 0, none, 5, none, none, none⟩, []⟩
      ⟨"sess1", some "u", some "pk", some 100, some 500, some "usd"⟩ "u" "pk" 100
      ⟨0, none, 0, none, 5, none, none, none⟩ rfl rfl rfl (by norm_num) (by norm_num) rfl
      (by simp)
  exact ⟨by norm_num, by norm_num, h1, h2, h3, h4⟩

/-- Counterexample for C7: for a concrete `customer.subscription.updated`
event with status `active` and plan `pro` hitting an existing user,
`handleSubscriptionUpdated` appends no CreditRecord at all — in
particular no `subscription_reset` record — contradicting the claim
that every subscription created/updated/renewed event appends one. -/
theorem C7_counterexample :
    ({ id := "sub1", status := "active", current_period_end := 100,
        planId := some "pro" } : StripeSubscription).status = "active" ∧
    (handleSubscriptionUpdated (some ⟨0, none, 0, none, 0, none, none, none⟩)
      { id := "sub1", status := "active", current_period_end := 100,
        planId := some "pro" } 0).newRecords = [] := by
  constructor
  · rfl
  · decide

/-- C7 (amended): for every subscription created/updated event whose
status is `active` or `trialing` and whose customer maps to an existing
user, the handler sets `subscriptionCredits` to the tier-derived limit
(overwriting, not adding) — but it appends no CreditRecord; the
`subscription_reset` record is written only by the subscription
checkout-completed handler. `resetSubscriptionCredits` likewise
overwrites `subscriptionCredits` with the tier-derived limit. -/
theorem C7_subscription_update_overwrites (w : Wallet) (sub : StripeSubscription)
    (now : Int) (planId0 tier : String)
    (hactive : (sub.status == "active" || sub.status == "trialing") = true)
    (hplan : planId0 = sub.planId.getD "pro")
    (htier : tier = if planId0 == "starter" || planId0 == "pro" || planId0 == "max"
      then planId0 else "free") :
    (∃ w', (handleSubscriptionUpdated (some w) sub now).wallet = some w' ∧
      w'.subscriptionCredits =
        getSubscriptionCreditsLimit tier (some sub.current_period_end) now ∧
      w'.subscriptionTier = some tier ∧
      (handleSubscriptionUpdated (some w) sub now).newRecords = []) ∧
    (∀ v : Wallet, ∀ t : String, ∀ e : Int,
      resetSubscriptionCredits (some v) t e now =
        some { v with subscriptionCredits := getSubscriptionCreditsLimit t (some e) now
                      subscriptionCreditsResetAt := some now }) := by
  constructor
  · subst hplan
    subst htier
    simp only [handleSubscriptionUpdated]
    rw [if_pos hactive]
    refine ⟨_, rfl, ?_, ?_, rfl⟩
    · simp [hactive]
    · simp [hactive]
  · intro v t e
    rfl

/-- Witness for C7 (amended) at a concrete active `pro` event: the
wallet's subscription pool is overwritten with the pro limit 2700 and
no record is appended. -/
theorem C7_subscription_update_overwrites_witness :
    (("active" == "active" || "active" == "trialing") = true) ∧
    ∃ w', (handleSubscriptionUpdated (some ⟨3, none, 40, none, 7, none, none, none⟩)
        ⟨"sub1", "active", 100, some "pro"⟩ 0).wallet = some w' ∧
      w'.subscriptionCredits = getSubscriptionCreditsLimit "pro" (some 100) 0 ∧
      w'.subscriptionTier = some "pro" ∧
      (handleSubscriptionUpdated (some ⟨3, none, 40, none, 7, none, none, none⟩)
        ⟨"sub1", "active", 100, some "pro"⟩ 0).newRecords = [] := by
  obtain ⟨⟨w', h1, h2, h3, h4⟩, -⟩ :=
    C7_subscription_update_overwrites ⟨3, none, 40, none, 7, none, none, none⟩
      ⟨"sub1", "active", 100, some "pro"⟩ 0 "pro" "pro" (by decide) (by decide) (by decide)
  exact ⟨by decide, w', h1, h2, h3, h4⟩

/-- Appending an element satisfying the predicate makes `find?`
succeed. -/
theorem find?_append_singleton {α : Type} (p : α → Bool) (l : List α) (x : α)
    (hx : p x = true) : ∃ y, (l ++ [x]).find? p = some y := by
  induction l with
  | nil => exact ⟨x, by simp [List.find?, hx]⟩
  | cons a t ih =>
    by_cases h : p a = true
    · exact ⟨a, by simp [List.find?_cons_of_pos _ h]⟩
    · obtain ⟨y, hy⟩ := ih
      refine ⟨y, ?_⟩
      rw [List.cons_append, List.find?_cons_of_neg _ (by simpa using h)]
      exact hy

/-- Case analysis of `applyReferralCode`: either it fails and leaves
the state untouched, or it succeeds and has appended exactly one
referral row whose `referredId` is the referred user. -/
theorem applyReferralCode_cases (a b ip : String) (ts n : Int) (st : RefState) :
    ((applyReferralCode a b ip ts n st).1.success = false ∧
      (applyReferralCode a b ip ts n st).2 = st) ∨
    ((applyReferralCode a b ip ts n st).1.success = true ∧
      ∃ nr, (applyReferralCode a b ip ts n st).2.referrals = st.referrals ++ [nr] ∧
        nr.referredId = a) := by
  simp only [applyReferralCode]
  split
  · exact Or.inl ⟨rfl, rfl⟩
  split
  · exact Or.inl ⟨rfl, rfl⟩
  split
  · exact Or.inl ⟨rfl, rfl⟩
  split
  · exact Or.inl ⟨rfl, rfl⟩
  split
  · exact Or.inl ⟨rfl, rfl⟩
  · exact Or.inr ⟨rfl, ⟨_, rfl, rfl⟩⟩

/-- C8: `applyReferralCode(a, a, ctx)` always fails with
`SELF_REFERRAL`; every rejection returns without modifying the state
(no wallet, Referral row, or CreditRecord change); and after a
successful application, a second application for the same referred
user (by any referrer other than the user themself) fails with
`ALREADY_APPLIED`, again without modifying the state. -/
theorem C8_referral_rejections :
    (∀ a ip : String, ∀ ts n : Int, ∀ st : RefState,
      applyReferralCode a a ip ts n st =
        ({ success := false, code := some "SELF_REFERRAL" }, st)) ∧
    (∀ a b ip : String, ∀ ts n : Int, ∀ st : RefState,
      (applyReferralCode a b ip ts n st).1.success = false →
      (applyReferralCode a b ip ts n st).2 = st) ∧
    (∀ a b b2 ip ip2 : String, ∀ ts n ts2 n2 : Int, ∀ st : RefState,
      a ≠ b2 →
      (applyReferralCode a b ip ts n st).1.success = true →
      applyReferralCode a b2 ip2 ts2 n2 (applyReferralCode a b ip ts n st).2 =
        ({ success := false, code := some "ALREADY_APPLIED" },
          (applyReferralCode a b ip ts n st).2)) := by
  refine ⟨?_, ?_, ?_⟩
  · intro a ip ts n st
    simp [applyReferralCode]
  · intro a b ip ts n st h
    rcases applyReferralCode_cases a b ip ts n st with ⟨-, h2⟩ | ⟨h1, -⟩
    · exact h2
    · rw [h] at h1
      exact absurd h1 (by decide)
  · intro a b b2 ip ip2 ts n ts2 n2 st hne hsucc
    rcases applyReferralCode_cases a b ip ts n st with ⟨h1, -⟩ | ⟨-, nr, href, hrid⟩
    · rw [hsucc] at h1
      exact absurd h1 (by decide)
    · generalize hst1 : (applyReferralCode a b ip ts n st).2 = st1 at href ⊢
      obtain ⟨y, hy⟩ := find?_append_singleton (fun r => r.referredId == a)
        st.referrals nr (by simp [hrid])
      simp only [applyReferralCode]
      rw [if_neg (by simp [hne]), href, hy]

/-- Witness for C8: a self-referral fails and changes nothing; a
successful referral followed by a second attempt for the same referred
user yields `ALREADY_APPLIED` and an unchanged state. -/
theorem C8_referral_rejections_witness :
    applyReferralCode "x" "x" "ip0" 0 5
        ⟨[⟨"r", 0, 0, 0, 0, 0, 0⟩], [], []⟩ =
      ({ success := false, code := some "SELF_REFERRAL" },
        ⟨[⟨"r", 0, 0, 0, 0, 0, 0⟩], [], []⟩) ∧
    ("x" ≠ "r2") ∧
    (applyReferralCode "x" "r" "ip0" 0 5
      ⟨[⟨"r", 0, 0, 0, 0, 0, 0⟩], [], []⟩).1.success = true ∧
    applyReferralCode "x" "r2" "ip1" 1 6
        (applyReferralCode "x" "r" "ip0" 0 5
          ⟨[⟨"r", 0, 0, 0, 0, 0, 0⟩], [], []⟩).2 =
      ({ success := false, code := some "ALREADY_APPLIED" },
        (applyReferralCode "x" "r" "ip0" 0 5
          ⟨[⟨"r", 0, 0, 0, 0, 0, 0⟩], [], []⟩).2) :=
  ⟨C8_referral_rejections.1 "x" "ip0" 0 5 ⟨[⟨"r", 0, 0, 0, 0, 0, 0⟩], [], []⟩,
    by decide, by decide,
    C8_referral_rejections.2.2 "x" "r" "r2" "ip0" "ip1" 0 5 1 6
      ⟨[⟨"r", 0, 0, 0, 0, 0, 0⟩], [], []⟩ (by decide) (by decide)⟩

/-- C9: for every key state and configuration (positive window, at
least one allowed request), `checkRateLimit` first discards the stored
timestamps at or before `now - windowMs`; if the count of remaining
timestamps reaches `maxRequests` it rejects, reporting time-until-reset
`oldestTimestamp + windowMs - now` and storing the pruned list;
otherwise it records `now` and allows the request. -/
theorem C9_rate_limiter (timestamps : List Int) (windowMs maxRequests now : Int)
    (kept : List Int)
    (hkept : kept = timestamps.filter (fun ts => now - windowMs < ts))
    (hwin : 0 < windowMs) (hmax : 1 ≤ maxRequests) :
    (∀ t ∈ timestamps, t ≤ now - windowMs →
      t ∉ (checkRateLimit timestamps windowMs maxRequests now).2) ∧
    (maxRequests ≤ (kept.length : Int) →
      checkRateLimit timestamps windowMs maxRequests now =
        ({ limited := true, remaining := 0, resetMs := kept.headD 0 + windowMs - now },
          kept)) ∧
    ((kept.length : Int) < maxRequests →
      checkRateLimit timestamps windowMs maxRequests now =
        ({ limited := false, remaining := maxRequests - ((kept.length : Int) + 1),
            resetMs := windowMs }, kept ++ [now])) := by
  subst hkept
  refine ⟨?_, ?_, ?_⟩
  · intro t ht hle hmem
    simp only [checkRateLimit] at hmem
    split at hmem
    · simp only [List.mem_filter, decide_eq_true_eq] at hmem
      omega
    · simp only [List.mem_append, List.mem_filter, List.mem_singleton,
        decide_eq_true_eq] at hmem
      rcases hmem with ⟨-, hgt⟩ | rfl
      · omega
      · omega
  · intro hge
    have hne : timestamps.filter (fun ts => now - windowMs < ts) ≠ [] := by
      intro h0
      rw [h0] at hge
      simp at hge
      omega
    obtain ⟨h0, t0, hkd⟩ : ∃ h0 t0,
        timestamps.filter (fun ts => now - windowMs < ts) = h0 :: t0 := by
      cases hcase : timestamps.filter (fun ts => now - windowMs < ts) with
      | nil => exact absurd hcase hne
      | cons x xs => exact ⟨x, xs, rfl⟩
    have hh0 : now - windowMs < h0 := by
      have hmem : h0 ∈ timestamps.filter (fun ts => now - windowMs < ts) := by
        rw [hkd]
        exact List.mem_cons_self h0 t0
      have := (List.mem_filter.mp hmem).2
      simpa using this
    rw [hkd] at hge ⊢
    simp only [checkRateLimit]
    rw [hkd, if_pos hge]
    simp only [List.headD_cons]
    have hmx : max 0 (h0 + windowMs - now) = h0 + windowMs - now := by omega
    rw [hmx]
  · intro hlt
    simp only [checkRateLimit]
    rw [if_neg (not_le.mpr hlt)]

/-- Witness for C9: with stored timestamps [1, 5, 9], a 6ms window,
limit 2 and now=10, the timestamp 1 is pruned, the remaining [5, 9]
reach the limit, and the call rejects with resetMs = 5 + 6 - 10 = 1. -/
theorem C9_rate_limiter_witness :
    ([5, 9] : List Int) = List.filter (fun ts => decide (10 - 6 < ts)) [1, 5, 9] ∧
    (0 : Int) < 6 ∧ (1 : Int) ≤ 2 ∧
    (1 : Int) ∉ (checkRateLimit [1, 5, 9] 6 2 10).2 ∧
    checkRateLimit [1, 5, 9] 6 2 10 =
      ({ limited := true, remaining := 0,
          resetMs := ([5, 9] : List Int).headD 0 + 6 - 10 }, [5, 9]) := by
  obtain ⟨p1, p2, p3⟩ :=
    C9_rate_limiter [1, 5, 9] 6 2 10 [5, 9] (by decide) (by norm_num) (by norm_num)
  exact ⟨by decide, by norm_num, by norm_num, p1 1 (by decide) (by decide),
    p2 (by decide)⟩

end Morph
